import Mathlib

/-!
# Verification of the SileroVAD segmentation / buffering engine

Shallow embedding of `src/vad/SileroVAD.ts` (realtime-ai/realtime-audio-sdk).
Audio samples are opaque data (modelled as `Int`); timestamps, durations (ms)
and probabilities are exact rationals, mirroring the JS number arithmetic used
by the engine (all the arithmetic the engine performs on these quantities is
exact on the values that occur).  The ONNX inference session is modelled as an
oracle function `frame → recurrentState → probability × recurrentState`, as the
spec's §4.2 ProbabilityOracle describes the collaborator.
-/

namespace RealtimeVAD

/-- Audio samples are never inspected by the engine; model them as integers. -/
abbrev Sample := Int

/-- The probability oracle: one fixed-size frame plus the current recurrent
state yields a probability and the successor state (spec §4.2; in the source
this is the ONNX session invoked by `processFrame`). -/
abbrev Oracle := List Sample → List ℚ → ℚ × List ℚ

/-- `VADState` from SileroVAD.ts line 22. -/
inductive VADState where
  | silence
  | potential_start
  | speaking
  | potential_end
deriving DecidableEq

/-- The speech segment payload built by `createSpeechSegment`.  The source
field `end` is a Lean keyword and is rendered `endTime` here. -/
structure SpeechSegment where
  start : ℚ
  endTime : ℚ
  duration : ℚ
  audioData : List Sample
deriving DecidableEq

/-- `VADEventData` from SileroVAD.ts lines 5-15. -/
structure VADEventData where
  isSpeech : Bool
  probability : ℚ
  timestamp : ℚ
  segment : Option SpeechSegment
deriving DecidableEq

/-- The two events of `SileroVADEvents` (SileroVAD.ts lines 17-20). -/
inductive VADEvent where
  | speechStart (data : VADEventData)
  | speechEnd (data : VADEventData)
deriving DecidableEq

/-- Projection to the payload of an event. -/
def eventData : VADEvent → VADEventData
  | .speechStart d => d
  | .speechEnd d => d

/-- Whether an event is a `speech-end` event. -/
def eventIsEnd : VADEvent → Bool
  | .speechStart _ => false
  | .speechEnd _ => true

/-- The configuration as stored (`Required<SileroVADConfig>`); the fields the
engine's logic reads.  `enabled` and `modelPath` never influence the
segmentation logic and are omitted. -/
structure VADConfig where
  positiveSpeechThreshold : ℚ
  negativeSpeechThreshold : ℚ
  silenceDuration : ℚ
  preSpeechPadDuration : ℚ
  minSpeechDuration : ℚ
deriving DecidableEq

/-- `Partial<SileroVADConfig>`: an update object where each field may be
absent (TS `undefined`). -/
structure PartialVADConfig where
  positiveSpeechThreshold : Option ℚ := none
  negativeSpeechThreshold : Option ℚ := none
  silenceDuration : Option ℚ := none
  preSpeechPadDuration : Option ℚ := none
  minSpeechDuration : Option ℚ := none
deriving DecidableEq

/-- JS object spread `{ ...base, ...upd }`: fields present in `upd` override. -/
def mergeConfig (base : VADConfig) (upd : PartialVADConfig) : VADConfig :=
  { positiveSpeechThreshold := upd.positiveSpeechThreshold.getD base.positiveSpeechThreshold
    negativeSpeechThreshold := upd.negativeSpeechThreshold.getD base.negativeSpeechThreshold
    silenceDuration := upd.silenceDuration.getD base.silenceDuration
    preSpeechPadDuration := upd.preSpeechPadDuration.getD base.preSpeechPadDuration
    minSpeechDuration := upd.minSpeechDuration.getD base.minSpeechDuration }

/-- The mutable instance state of class `SileroVAD` (lines 27-48).
`stateTensor` is the Silero v5 recurrent state, a flat list of 2x1x128
floats. -/
structure SileroVAD where
  config : VADConfig
  state : VADState
  audioBuffer : List (List Sample)
  speechStartTime : ℚ
  speechEndCandidateTime : ℚ
  speechStartBufferIndex : ℕ
  potentialSpeechDurationMs : ℚ
  potentialSilenceDurationMs : ℚ
  frameSize : ℕ
  sampleBuffer : List Sample
  lastProbability : ℚ
  lastTimestamp : ℚ
  stateTensor : List ℚ
deriving DecidableEq

/-- `resetStates` (lines 117-121): the recurrent state becomes 2*128 zeroes. -/
def resetStates (s : SileroVAD) : SileroVAD :=
  { s with stateTensor := List.replicate 256 0 }

/-- The constructor (lines 50-67): defaults applied with `??`, state fields
zeroed, `frameSize = 512`; `initialize` then zeroes the recurrent state via
`resetStates`. -/
def mkSileroVAD (c : PartialVADConfig) : SileroVAD :=
  { config :=
      { positiveSpeechThreshold := (c.positiveSpeechThreshold).getD (3/10)
        negativeSpeechThreshold := (c.negativeSpeechThreshold).getD (1/4)
        silenceDuration := (c.silenceDuration).getD 1400
        preSpeechPadDuration := (c.preSpeechPadDuration).getD 800
        minSpeechDuration := (c.minSpeechDuration).getD 400 }
    state := .silence
    audioBuffer := []
    speechStartTime := 0
    speechEndCandidateTime := 0
    speechStartBufferIndex := 0
    potentialSpeechDurationMs := 0
    potentialSilenceDurationMs := 0
    frameSize := 512
    sampleBuffer := []
    lastProbability := 0
    lastTimestamp := 0
    stateTensor := List.replicate 256 0 }

/-- JS `Math.ceil` on an exact rational, computably: `⌈q⌉ = -⌊-q⌋`, with the
floor of a normalized rational being the Euclidean division of numerator by
denominator.  `ceilQ_eq_ceil` below identifies it with Mathlib's `⌈q⌉`. -/
def ceilQ (q : ℚ) : ℤ := -((-q).num / ((-q).den : ℤ))

/-- JS `arr.slice(-m)` on an array, for an integer `m` (the argument passed is
`-maxBufferFrames`): a positive `m` keeps the last `m` elements, `m = 0` gives
`slice(0)` = the whole array, a negative `m` is `slice(-m)` = drop `-m` from
the front. -/
def sliceFromEnd (l : List (List Sample)) (m : ℤ) : List (List Sample) :=
  if 0 < m then l.drop (l.length - m.toNat) else l.drop (-m).toNat

/-- `prePadSamples = (preSpeechPadDuration * 16000) / 1000` (lines 143, 340,
377). -/
def prePadSamplesOf (cfg : VADConfig) : ℚ :=
  cfg.preSpeechPadDuration * 16000 / 1000

/-- The frame-extraction loop of `process` (lines 160-173): repeatedly take
`frameSize` samples while at least `frameSize` remain.  The fuel is the length
of the buffer, which suffices because every iteration consumes at least one
sample. -/
def extractFramesAux (frameSize : ℕ) : ℕ → List Sample → List (List Sample) × List Sample
  | 0, l => ([], l)
  | fuel + 1, l =>
    if 0 < frameSize ∧ frameSize ≤ l.length then
      let rest := extractFramesAux frameSize fuel (l.drop frameSize)
      (l.take frameSize :: rest.1, rest.2)
    else
      ([], l)

/-- All complete `frameSize`-sample frames of `l`, in order, together with the
remainder (`sampleBuffer` after the call). -/
def extractFrames (frameSize : ℕ) (l : List Sample) : List (List Sample) × List Sample :=
  extractFramesAux frameSize l.length l

/-- Run the oracle over a list of frames, threading the recurrent state;
returns the probabilities in order and the final state.  This is the loop of
`process` lines 164-173 observed through its `processFrame` calls. -/
def runFrames (oracle : Oracle) : List (List Sample) → List ℚ → List ℚ × List ℚ
  | [], st => ([], st)
  | f :: fs, st =>
    let r := oracle f st
    let rest := runFrames oracle fs r.2
    (r.1 :: rest.1, rest.2)

/-- `resetToSilence` (lines 322-329). -/
def resetToSilence (s : SileroVAD) : SileroVAD :=
  { s with
    state := .silence
    speechStartTime := 0
    speechEndCandidateTime := 0
    potentialSpeechDurationMs := 0
    potentialSilenceDurationMs := 0
    speechStartBufferIndex := 0 }

/-- `calculateSpeechStartBufferIndex` (lines 334-343).  The JS
`buffer[len-1]?.length || frameSize` falls back to `frameSize` when the last
chunk is empty. -/
def calculateSpeechStartBufferIndex (s : SileroVAD) : ℕ :=
  if s.audioBuffer = [] then 0
  else
    let n := (s.audioBuffer.getLastD []).length
    let lastChunkLength := if n = 0 then s.frameSize else n
    let prePadFrames : ℤ := ceilQ (prePadSamplesOf s.config / (max 1 lastChunkLength : ℚ))
    (max 0 ((s.audioBuffer.length : ℤ) - prePadFrames)).toNat

/-- `createSpeechSegment` (lines 389-419). -/
def createSpeechSegment (s : SileroVAD) (endTime : ℚ) : SpeechSegment :=
  let segmentData := s.audioBuffer.drop s.speechStartBufferIndex
  let audioData := segmentData.flatten
  let totalLength := audioData.length
  let durationMs : ℚ := ((totalLength : ℚ) / 16000) * 1000
  let startTimeSeconds := endTime - durationMs / 1000
  let segmentStart := max 0 startTimeSeconds
  { start := segmentStart
    endTime := endTime
    duration := durationMs
    audioData := audioData }

/-- `endSpeech` (lines 348-384): emit exactly one `speech-end`, with a segment
only when the elapsed speech duration meets `minSpeechDuration`; reset to
silence; then prune the audio buffer using an assumed 20 ms (320-sample) chunk
size. -/
def endSpeech (s : SileroVAD) (timestamp probability : ℚ) : SileroVAD × List VADEvent :=
  let speechDurationMs := (timestamp - s.speechStartTime) * 1000
  let segment : Option SpeechSegment :=
    if speechDurationMs ≥ s.config.minSpeechDuration then
      some (createSpeechSegment s timestamp)
    else none
  let ev := VADEvent.speechEnd
    { isSpeech := false, probability := probability, timestamp := timestamp, segment := segment }
  let s1 := resetToSilence s
  let prePadFrames : ℤ := ceilQ (prePadSamplesOf s1.config / 320)
  let maxBufferFrames : ℤ := prePadFrames * 2
  let s2 :=
    if (s1.audioBuffer.length : ℤ) > maxBufferFrames then
      { s1 with audioBuffer := sliceFromEnd s1.audioBuffer maxBufferFrames }
    else s1
  (s2, [ev])

/-- `confirmSpeechStart` (lines 302-317): enter Speaking, clear the potential
counters, fix the pre-padding cut index, and emit one `speech-start` whose
timestamp is the `timestamp` argument of the call. -/
def confirmSpeechStart (s : SileroVAD) (timestamp probability : ℚ) : SileroVAD × List VADEvent :=
  let s1 := { s with
    state := VADState.speaking
    potentialSpeechDurationMs := 0
    potentialSilenceDurationMs := 0
    speechEndCandidateTime := 0 }
  let s2 := { s1 with speechStartBufferIndex := calculateSpeechStartBufferIndex s1 }
  (s2, [VADEvent.speechStart
    { isSpeech := true, probability := probability, timestamp := timestamp, segment := none }])

/-- The effective step duration of `updateVADState` (lines 233-235): the
processed duration when positive, otherwise one frame's duration. -/
def stepDurationMs (frameSize : ℕ) (processedDurationMs : ℚ) : ℚ :=
  if processedDurationMs > 0 then processedDurationMs
  else ((frameSize : ℚ) / 16000) * 1000

/-- `updateVADState` (lines 232-297): one hysteresis step.  Returns the new
engine state, the emitted events, and the `isSpeech` flag (true exactly in
Speaking / PotentialEnd). -/
def updateVADState (s : SileroVAD) (probability timestamp processedDurationMs : ℚ) :
    SileroVAD × List VADEvent × Bool :=
  let durationMs := stepDurationMs s.frameSize processedDurationMs
  let pos := s.config.positiveSpeechThreshold
  let neg := s.config.negativeSpeechThreshold
  let r : SileroVAD × List VADEvent :=
    match s.state with
    | .silence =>
      if probability > pos then
        ({ s with
            state := .potential_start
            speechStartTime := timestamp
            potentialSpeechDurationMs := durationMs
            potentialSilenceDurationMs := 0 }, [])
      else (s, [])
    | .potential_start =>
      if probability > pos then
        let s1 := { s with potentialSpeechDurationMs := s.potentialSpeechDurationMs + durationMs }
        if s1.potentialSpeechDurationMs ≥ s1.config.minSpeechDuration then
          confirmSpeechStart s1 timestamp probability
        else (s1, [])
      else if probability < neg then (resetToSilence s, [])
      else (s, [])
    | .speaking =>
      if probability < neg then
        ({ s with
            state := .potential_end
            potentialSilenceDurationMs := durationMs
            speechEndCandidateTime := timestamp }, [])
      else ({ s with potentialSilenceDurationMs := 0, speechEndCandidateTime := 0 }, [])
    | .potential_end =>
      if probability < neg then
        let s1 := { s with potentialSilenceDurationMs := s.potentialSilenceDurationMs + durationMs }
        if s1.potentialSilenceDurationMs ≥ s1.config.silenceDuration then
          let endTime := if s1.speechEndCandidateTime ≠ 0 then s1.speechEndCandidateTime else timestamp
          endSpeech s1 endTime probability
        else (s1, [])
      else if probability > pos then
        ({ s with
            state := .speaking
            potentialSilenceDurationMs := 0
            speechEndCandidateTime := 0 }, [])
      else (s, [])
  (r.1, r.2, decide (r.1.state = .speaking ∨ r.1.state = .potential_end))

/-- The result of one `process` call: the updated engine, the events emitted
during the call, and the returned `{isSpeech, probability}`. -/
structure ProcessResult where
  engine : SileroVAD
  events : List VADEvent
  isSpeech : Bool
  probability : ℚ
deriving DecidableEq

/-- The buffering portion of `process` (lines 130-180): record the timestamp,
push the chunk onto the audio buffer, prune during silence, consume every
complete frame (updating the recurrent state, the last probability and the
sample remainder).  The state handed to the single `updateVADState` call.

The silence-state pruning (lines 141-151) divides by `audioData.length`; on an
empty chunk the JS quotient is `Infinity` (for a nonnegative pad duration),
the ceiling is `Infinity` and the prune never fires, which the `c ≠ []` guard
reproduces. -/
def midState (oracle : Oracle) (s : SileroVAD) (audioData : List Sample) (timestamp : ℚ) :
    SileroVAD :=
  let s1 := { s with lastTimestamp := timestamp }
  let s2 := { s1 with audioBuffer := s1.audioBuffer ++ [audioData] }
  let s3 :=
    if s2.state = VADState.silence ∧ audioData.length ≠ 0 then
      let prePadFrames : ℤ := ceilQ (prePadSamplesOf s2.config / (audioData.length : ℚ))
      let maxBufferFrames : ℤ := prePadFrames * 2
      if (s2.audioBuffer.length : ℚ) > (maxBufferFrames : ℚ) * (15/10) then
        { s2 with audioBuffer := sliceFromEnd s2.audioBuffer maxBufferFrames }
      else s2
    else s2
  let er := extractFrames s3.frameSize (s3.sampleBuffer ++ audioData)
  let rr := runFrames oracle er.1 s3.stateTensor
  { s3 with
    sampleBuffer := er.2
    stateTensor := rr.2
    lastProbability := rr.1.getLastD s3.lastProbability }

/-- The per-call frame probabilities: what the `processFrame` calls of this
`process` invocation return, in order. -/
def frameProbs (oracle : Oracle) (s : SileroVAD) (audioData : List Sample) : List ℚ :=
  (runFrames oracle (extractFrames s.frameSize (s.sampleBuffer ++ audioData)).1 s.stateTensor).1

/-- `process` (lines 126-196): buffer bookkeeping, frame consumption, then
exactly one `updateVADState` step using the mean of the completed frames'
probabilities (or the last known probability when no frame completed) and the
completed frames' total duration (or the chunk's own duration). -/
def process (oracle : Oracle) (s : SileroVAD) (audioData : List Sample) (timestamp : ℚ) :
    ProcessResult :=
  let m := midState oracle s audioData timestamp
  let probs := frameProbs oracle s audioData
  let frameCount := probs.length
  let processedDurationMs : ℚ :=
    if 0 < frameCount then (frameCount : ℚ) * (((s.frameSize : ℚ) / 16000) * 1000)
    else ((audioData.length : ℚ) / 16000) * 1000
  let finalProbability : ℚ :=
    if 0 < frameCount then probs.sum / (frameCount : ℚ) else s.lastProbability
  let u := updateVADState m finalProbability timestamp processedDurationMs
  { engine := u.1, events := u.2.1, isSpeech := u.2.2, probability := finalProbability }

/-- `updateConfig` (lines 424-426): unconditional object-spread merge. -/
def updateConfig (s : SileroVAD) (c : PartialVADConfig) : SileroVAD :=
  { s with config := mergeConfig s.config c }

/-- `reset` (lines 431-438). -/
def reset (s : SileroVAD) : SileroVAD :=
  resetStates
    { resetToSilence s with
      audioBuffer := []
      sampleBuffer := []
      lastProbability := 0
      lastTimestamp := 0 }

/-- `flush` (lines 444-457).  In the source the end time is
`timestamp ?? speechEndCandidateTime ?? lastTimestamp ?? ...`; since
`speechEndCandidateTime` is always a number, the chain never passes it, so the
model is `timestamp.getD speechEndCandidateTime`. -/
def flush (s : SileroVAD) (timestamp : Option ℚ) : SileroVAD × List VADEvent :=
  if s.state = VADState.speaking ∨ s.state = VADState.potential_end then
    let endTime := timestamp.getD s.speechEndCandidateTime
    endSpeech s endTime s.lastProbability
  else if s.state = VADState.potential_start then
    (resetToSilence s, [])
  else (s, [])

/-! ## Traces over sequences of `process` calls -/

/-- Feed a sequence of (chunk, timestamp) pairs to `process` in order. -/
def processMany (oracle : Oracle) (s : SileroVAD) : List (List Sample × ℚ) → SileroVAD
  | [] => s
  | ct :: rest => processMany oracle (process oracle s ct.1 ct.2).engine rest

/-- The frames a single `process` call extracts for inference. -/
def framesOf (s : SileroVAD) (c : List Sample) : List (List Sample) :=
  (extractFrames s.frameSize (s.sampleBuffer ++ c)).1

/-- All frames extracted for inference across a sequence of `process` calls,
in order. -/
def allFrames (oracle : Oracle) (s : SileroVAD) : List (List Sample × ℚ) → List (List Sample)
  | [] => []
  | ct :: rest => framesOf s ct.1 ++ allFrames oracle (process oracle s ct.1 ct.2).engine rest

/-- The step probability a `process` call hands to its single
`updateVADState` step: the arithmetic mean of the completed frames'
probabilities, or the last known probability when no frame completed. -/
def stepProbOf (oracle : Oracle) (s : SileroVAD) (c : List Sample) : ℚ :=
  if 0 < (frameProbs oracle s c).length then
    (frameProbs oracle s c).sum / ((frameProbs oracle s c).length : ℚ)
  else s.lastProbability

/-- The processed duration a `process` call hands to its single
`updateVADState` step: the completed frames' total duration, or the chunk's
own duration when no frame completed. -/
def stepDurOf (oracle : Oracle) (s : SileroVAD) (c : List Sample) : ℚ :=
  if 0 < (frameProbs oracle s c).length then
    ((frameProbs oracle s c).length : ℚ) * (((s.frameSize : ℚ) / 16000) * 1000)
  else ((c.length : ℚ) / 16000) * 1000

/-! ## The asynchronous queue and per-call `vad-result` events -/

/-- Modelled from the spec: the payload of the `vad-result` event
(`{isSpeech, probability, timestamp}`, spec §6). -/
structure VADResultEvent where
  isSpeech : Bool
  probability : ℚ
  timestamp : ℚ
deriving DecidableEq

/-- Modelled from the spec: the asynchronous queue-processing SileroVAD
variant (`enqueue` / `vad-result`) that `AudioProcessor` and the package
entry point reference is not among the sources here — only its callers and
type re-exports are.  Per spec §4.5 the queue serializes `process` calls in
strict arrival order, and per spec §6 a `vad-result{isSpeech, probability,
timestamp}` event is emitted for every processed frame: draining the queue
runs `process` on each queued (chunk, timestamp) pair in order and emits one
`vad-result` carrying that call's returned flag and probability and its
timestamp. -/
def drainQueue (oracle : Oracle) (s : SileroVAD) :
    List (List Sample × ℚ) → SileroVAD × List VADResultEvent
  | [] => (s, [])
  | ct :: rest =>
    let r := process oracle s ct.1 ct.2
    let tail := drainQueue oracle r.engine rest
    (tail.1, { isSpeech := r.isSpeech, probability := r.probability, timestamp := ct.2 } :: tail.2)

/-- The `{isSpeech, probability}` results the serialized `process` calls
return, in arrival order. -/
def processOutputs (oracle : Oracle) (s : SileroVAD) :
    List (List Sample × ℚ) → List (Bool × ℚ)
  | [] => []
  | ct :: rest =>
    let r := process oracle s ct.1 ct.2
    (r.isSpeech, r.probability) :: processOutputs oracle r.engine rest

/-! ## Concrete runs used by witnesses and counterexamples -/

/-- An oracle that reports probability 1/2 for every frame. -/
def oracleHalf : Oracle := fun _ st => (1/2, st)

/-- An oracle that reports probability 0 for every frame. -/
def oracleZero : Oracle := fun _ st => (0, st)

/-- One full 512-sample (32 ms) chunk of silence samples. -/
def chunk512 : List Sample := List.replicate 512 0

/-- A short 8-sample chunk. -/
def chunk8 : List Sample := List.replicate 8 0

/-- Engine with `minSpeechDuration` 50 ms, otherwise defaults. -/
def c1s0 : SileroVAD := mkSileroVAD { minSpeechDuration := some 50 }

/-- `c1s0` after one 512-sample chunk with probability 1/2 at t = 0:
in PotentialStart with 32 ms accumulated and `speechStartTime = 0`. -/
def c1s1 : SileroVAD := (process oracleHalf c1s0 chunk512 0).engine

/-- The second `process` call, at t = 0.032 s: accumulates 64 ms ≥ 50 ms and
confirms speech start. -/
def c1r2 : ProcessResult := process oracleHalf c1s1 chunk512 (32/1000)

/-- A PotentialStart state 10 ms short of the default 400 ms confirmation. -/
def psState : SileroVAD :=
  { mkSileroVAD {} with state := VADState.potential_start, potentialSpeechDurationMs := 390 }

/-- Engine with `preSpeechPadDuration` 0.5 ms (8 samples), otherwise
defaults. -/
def c3s0 : SileroVAD := mkSileroVAD { preSpeechPadDuration := some (1/2) }

/-- `c3s0` after three 8-sample chunks of probability-irrelevant audio (no
frame ever completes, the engine stays in Silence). -/
def c3s3 : SileroVAD :=
  (process oracleHalf
    ((process oracleHalf ((process oracleHalf c3s0 chunk8 0).engine) chunk8 1).engine)
    chunk8 2).engine

/-- A Speaking state holding 2 ms of buffered audio, used to finalize a
segment. -/
def spkState : SileroVAD :=
  { mkSileroVAD {} with
    state := VADState.speaking
    audioBuffer := [[1, 2], [3, 4]]
    speechStartTime := 0 }

/-- Engine with `minSpeechDuration` 0.01 ms, otherwise defaults. -/
def c5s0 : SileroVAD := mkSileroVAD { minSpeechDuration := some (1/100) }

/-- `c5s0` after two 512-sample chunks with probability 1/2 (t = 0 and
t = 0.032 s): Speaking, with 1024 samples buffered and cut index 0. -/
def c5s2 : SileroVAD :=
  (process oracleHalf ((process oracleHalf c5s0 chunk512 0).engine) chunk512 (32/1000)).engine

/-- Flushing `c5s2` at t = 0.05 s: the buffered 1024 samples amount to
0.064 s, so the claimed segment start 0.05 − 0.064 would be negative. -/
def c5r : SileroVAD × List VADEvent := flush c5s2 (some (1/20))

/-- A configuration update whose negative threshold 0.9 exceeds the stored
positive threshold 0.3. -/
def c7upd : PartialVADConfig := { negativeSpeechThreshold := some (9/10) }

/-- Default engine after one 512-sample chunk with probability 1/2 at t = 0:
PotentialStart with 32 ms accumulated and `lastProbability = 1/2`. -/
def c10s1 : SileroVAD := (process oracleHalf (mkSileroVAD {}) chunk512 0).engine

/-- `c10s1` after a zero-length chunk at t = 0.1 s. -/
def c10s2 : SileroVAD := (process oracleHalf c10s1 [] (1/10)).engine

/-! ## Basic lemmas -/

theorem ceilQ_eq_ceil (q : ℚ) : ceilQ q = ⌈q⌉ := by
  have h1 : ⌈q⌉ = -⌊-q⌋ := by
    rw [← Int.ceil_neg, neg_neg]
  rw [h1, ceilQ, Rat.floor_def]

theorem extractFramesAux_flatten (fs fuel : ℕ) (l : List Sample) :
    (extractFramesAux fs fuel l).1.flatten ++ (extractFramesAux fs fuel l).2 = l := by
  induction fuel generalizing l with
  | zero => simp [extractFramesAux]
  | succ n ih =>
    by_cases h : 0 < fs ∧ fs ≤ l.length
    · simp only [extractFramesAux, if_pos h, List.flatten_cons, List.append_assoc, ih]
      exact List.take_append_drop fs l
    · simp [extractFramesAux, if_neg h]

theorem extractFrames_flatten (fs : ℕ) (l : List Sample) :
    (extractFrames fs l).1.flatten ++ (extractFrames fs l).2 = l :=
  extractFramesAux_flatten fs l.length l

theorem extractFramesAux_mem_length (fs fuel : ℕ) (l f : List Sample)
    (hf : f ∈ (extractFramesAux fs fuel l).1) : f.length = fs := by
  induction fuel generalizing l with
  | zero => simp [extractFramesAux] at hf
  | succ n ih =>
    by_cases h : 0 < fs ∧ fs ≤ l.length
    · simp only [extractFramesAux, if_pos h, List.mem_cons] at hf
      rcases hf with hf | hf
      · subst hf
        simpa using Nat.min_eq_left h.2
      · exact ih (l.drop fs) hf
    · simp [extractFramesAux, if_neg h] at hf

theorem extractFrames_mem_length (fs : ℕ) (l f : List Sample)
    (hf : f ∈ (extractFrames fs l).1) : f.length = fs :=
  extractFramesAux_mem_length fs l.length l f hf

theorem extractFramesAux_of_short (fs fuel : ℕ) (l : List Sample) (h : l.length < fs) :
    extractFramesAux fs fuel l = ([], l) := by
  cases fuel with
  | zero => rfl
  | succ n =>
    have : ¬ (0 < fs ∧ fs ≤ l.length) := by
      rintro ⟨-, h2⟩
      omega
    simp [extractFramesAux, if_neg this]

theorem extractFrames_of_short (fs : ℕ) (l : List Sample) (h : l.length < fs) :
    extractFrames fs l = ([], l) :=
  extractFramesAux_of_short fs l.length l h

theorem midState_frameSize (oracle : Oracle) (s : SileroVAD) (c : List Sample) (t : ℚ) :
    (midState oracle s c t).frameSize = s.frameSize := by
  simp only [midState]
  split <;> [skip; rfl]
  split <;> rfl

theorem midState_sampleBuffer (oracle : Oracle) (s : SileroVAD) (c : List Sample) (t : ℚ) :
    (midState oracle s c t).sampleBuffer = (extractFrames s.frameSize (s.sampleBuffer ++ c)).2 := by
  simp only [midState]
  split <;> [skip; rfl]
  split <;> rfl

theorem midState_state (oracle : Oracle) (s : SileroVAD) (c : List Sample) (t : ℚ) :
    (midState oracle s c t).state = s.state := by
  simp only [midState]
  split <;> [skip; rfl]
  split <;> rfl

theorem resetToSilence_sampleBuffer (s : SileroVAD) :
    (resetToSilence s).sampleBuffer = s.sampleBuffer := rfl

theorem endSpeech_fst_sampleBuffer (s : SileroVAD) (t p : ℚ) :
    (endSpeech s t p).1.sampleBuffer = s.sampleBuffer := by
  simp only [endSpeech]
  split <;> rfl

theorem endSpeech_fst_frameSize (s : SileroVAD) (t p : ℚ) :
    (endSpeech s t p).1.frameSize = s.frameSize := by
  simp only [endSpeech]
  split <;> rfl

theorem endSpeech_fst_state (s : SileroVAD) (t p : ℚ) :
    (endSpeech s t p).1.state = VADState.silence := by
  simp only [endSpeech]
  split <;> rfl

theorem confirmSpeechStart_fst_sampleBuffer (s : SileroVAD) (t p : ℚ) :
    (confirmSpeechStart s t p).1.sampleBuffer = s.sampleBuffer := rfl

theorem updateVADState_sampleBuffer (s : SileroVAD) (p t d : ℚ) :
    (updateVADState s p t d).1.sampleBuffer = s.sampleBuffer := by
  cases hs : s.state <;>
    simp only [updateVADState, hs] <;>
    split_ifs <;>
    simp [confirmSpeechStart_fst_sampleBuffer, endSpeech_fst_sampleBuffer,
      resetToSilence_sampleBuffer]

theorem updateVADState_frameSize (s : SileroVAD) (p t d : ℚ) :
    (updateVADState s p t d).1.frameSize = s.frameSize := by
  cases hs : s.state <;>
    simp only [updateVADState, hs] <;>
    split_ifs <;>
    simp [confirmSpeechStart, endSpeech_fst_frameSize, resetToSilence]

theorem process_engine_sampleBuffer (oracle : Oracle) (s : SileroVAD) (c : List Sample) (t : ℚ) :
    (process oracle s c t).engine.sampleBuffer
      = (extractFrames s.frameSize (s.sampleBuffer ++ c)).2 := by
  simp only [process]
  rw [updateVADState_sampleBuffer, midState_sampleBuffer]

theorem process_engine_frameSize (oracle : Oracle) (s : SileroVAD) (c : List Sample) (t : ℚ) :
    (process oracle s c t).engine.frameSize = s.frameSize := by
  simp only [process]
  rw [updateVADState_frameSize, midState_frameSize]

theorem allFrames_flatten (oracle : Oracle) (chunks : List (List Sample × ℚ)) :
    ∀ s : SileroVAD,
      (allFrames oracle s chunks).flatten ++ (processMany oracle s chunks).sampleBuffer
        = s.sampleBuffer ++ (chunks.map Prod.fst).flatten := by
  induction chunks with
  | nil => intro s; simp [allFrames, processMany]
  | cons ct rest ih =>
    intro s
    simp only [allFrames, processMany, List.map_cons, List.flatten_cons, List.flatten_append,
      List.append_assoc]
    rw [ih, process_engine_sampleBuffer, ← List.append_assoc]
    have h := extractFrames_flatten s.frameSize (s.sampleBuffer ++ ct.1)
    rw [framesOf, h, List.append_assoc]

theorem allFrames_mem_length (oracle : Oracle) (chunks : List (List Sample × ℚ)) :
    ∀ s : SileroVAD, s.frameSize = 512 →
      ∀ f ∈ allFrames oracle s chunks, f.length = 512 := by
  induction chunks with
  | nil => intro s _ f hf; simp [allFrames] at hf
  | cons ct rest ih =>
    intro s hs f hf
    simp only [allFrames, List.mem_append] at hf
    rcases hf with hf | hf
    · rw [framesOf] at hf
      exact (extractFrames_mem_length s.frameSize (s.sampleBuffer ++ ct.1) f hf).trans hs
    · exact ih (process oracle s ct.1 ct.2).engine
        ((process_engine_frameSize oracle s ct.1 ct.2).trans hs) f hf

/-- `endSpeech` emits exactly one `speech-end`, carrying the probability and
timestamp it was called with, and a segment exactly when the elapsed duration
meets `minSpeechDuration`. -/
theorem endSpeech_events (s : SileroVAD) (t p : ℚ) :
    (endSpeech s t p).2 = [VADEvent.speechEnd
      { isSpeech := false, probability := p, timestamp := t,
        segment := if (t - s.speechStartTime) * 1000 ≥ s.config.minSpeechDuration
          then some (createSpeechSegment s t) else none }] := rfl

set_option maxRecDepth 100000

/-! ## Claims -/

/-- C2: across any sequence of `process` calls, the 512-sample frames
extracted for inference, concatenated, followed by the final stored
remainder, reproduce the initial remainder followed by all input chunks; and
a call that leaves fewer than 512 accumulated samples yields no frame and
only appends the chunk to the remainder. -/
theorem frame_reassembly_roundtrip (oracle : Oracle) (s0 : SileroVAD)
    (chunks : List (List Sample × ℚ)) (h512 : s0.frameSize = 512) :
    ((allFrames oracle s0 chunks).flatten ++ (processMany oracle s0 chunks).sampleBuffer
        = s0.sampleBuffer ++ (chunks.map Prod.fst).flatten) ∧
    (∀ f ∈ allFrames oracle s0 chunks, f.length = 512) ∧
    (∀ (c : List Sample) (t : ℚ), (s0.sampleBuffer ++ c).length < 512 →
        framesOf s0 c = [] ∧
        (process oracle s0 c t).engine.sampleBuffer = s0.sampleBuffer ++ c) := by
  refine ⟨allFrames_flatten oracle chunks s0, allFrames_mem_length oracle chunks s0 h512, ?_⟩
  intro c t hshort
  have h := extractFrames_of_short s0.frameSize (s0.sampleBuffer ++ c) (h512 ▸ hshort)
  constructor
  · rw [framesOf, h]
  · rw [process_engine_sampleBuffer, h]

/-- Witness for C2 on a concrete run: one 8-sample chunk through a fresh
default engine. -/
theorem frame_reassembly_roundtrip_witness :
    ((allFrames oracleHalf (mkSileroVAD {}) [(chunk8, 0)]).flatten
        ++ (processMany oracleHalf (mkSileroVAD {}) [(chunk8, 0)]).sampleBuffer
      = (mkSileroVAD {}).sampleBuffer ++ ([(chunk8, (0 : ℚ))].map Prod.fst).flatten) ∧
    (framesOf (mkSileroVAD {}) chunk8 = [] ∧
      (process oracleHalf (mkSileroVAD {}) chunk8 0).engine.sampleBuffer
        = (mkSileroVAD {}).sampleBuffer ++ chunk8) :=
  ⟨(frame_reassembly_roundtrip oracleHalf (mkSileroVAD {}) [(chunk8, 0)] rfl).1,
   (frame_reassembly_roundtrip oracleHalf (mkSileroVAD {}) [(chunk8, 0)] rfl).2.2 chunk8 0
     (by with_unfolding_all decide)⟩

/-- C1 counterexample: with `minSpeechDuration` = 50 ms and probability 1/2
throughout, the first chunk (t = 0) enters PotentialStart recording
`speechStartTime = 0`, and the second chunk (t = 0.032 s) confirms speech
start — but the emitted `speech-start` carries timestamp 0.032, the current
frame's timestamp, not `speechStartTime = 0`. -/
theorem speech_start_timestamp_counterexample :
    c1s1.state = VADState.potential_start ∧
    c1s1.speechStartTime = 0 ∧
    c1r2.events = [VADEvent.speechStart
      { isSpeech := true, probability := 1/2, timestamp := 32/1000, segment := none }] ∧
    (32/1000 : ℚ) ≠ 0 := by
  with_unfolding_all decide

/-- C1 (amended): when the engine is in PotentialStart and a step with
probability above `positiveSpeechThreshold` brings the accumulated potential
speech duration to `minSpeechDuration`, it enters Speaking and emits exactly
one `speech-start` whose timestamp is the current step's timestamp and whose
probability is the current step's probability. -/
theorem speech_start_confirmation (s : SileroVAD) (p t d : ℚ)
    (h1 : s.state = VADState.potential_start)
    (h2 : p > s.config.positiveSpeechThreshold)
    (h3 : s.potentialSpeechDurationMs + stepDurationMs s.frameSize d
        ≥ s.config.minSpeechDuration) :
    (updateVADState s p t d).1.state = VADState.speaking ∧
    (updateVADState s p t d).2.1 = [VADEvent.speechStart
      { isSpeech := true, probability := p, timestamp := t, segment := none }] := by
  simp only [updateVADState, h1, if_pos h2]
  simp only [if_pos h3, confirmSpeechStart]
  simp

/-- Witness for C1 (amended): a PotentialStart state 10 ms short of the
default 400 ms, stepped with probability 1/2 for 32 ms at t = 5. -/
theorem speech_start_confirmation_witness :
    (updateVADState psState (1/2) 5 32).1.state = VADState.speaking ∧
    (updateVADState psState (1/2) 5 32).2.1 = [VADEvent.speechStart
      { isSpeech := true, probability := 1/2, timestamp := 5, segment := none }] :=
  speech_start_confirmation psState (1/2) 5 32 rfl
    (by with_unfolding_all decide) (by with_unfolding_all decide)

/-- C4: every finalization (`endSpeech`, reached from confirmed silence in
PotentialEnd and from `flush` during active speech) emits exactly one
`speech-end` event; it carries a segment payload precisely when
`(endTime − speechStartTime) * 1000 ≥ minSpeechDuration`, and still fires —
without a segment — below that duration; the engine is left in Silence. -/
theorem speech_end_segment_iff (s : SileroVAD) (t p : ℚ) :
    (endSpeech s t p).2.map eventIsEnd = [true] ∧
    (endSpeech s t p).2.map (fun e => (eventData e).segment.isSome)
      = [decide ((t - s.speechStartTime) * 1000 ≥ s.config.minSpeechDuration)] ∧
    (endSpeech s t p).1.state = VADState.silence := by
  refine ⟨?_, ?_, endSpeech_fst_state s t p⟩
  · rw [endSpeech_events]
    rfl
  · rw [endSpeech_events]
    simp only [List.map_cons, List.map_nil, eventData]
    split_ifs with h
    · simp [h]
    · simp [h]

/-- C5 counterexample: a reachable Speaking state holding 1024 buffered
samples (0.064 s of audio), flushed at t = 0.05 s, finalizes with a segment
whose start is 0, while `endTime − totalSamples/sampleRate` is −7/500: the
source clamps the recomputed start at 0 (`Math.max(0, ...)`,
SileroVAD.ts line 409). -/
theorem segment_start_counterexample :
    c5s2.state = VADState.speaking ∧
    (c5r.2.map fun e => (eventData e).segment.map SpeechSegment.start) = [some 0] ∧
    (c5r.2.map fun e => (eventData e).segment.map
        fun g => g.endTime - (g.audioData.length : ℚ) / 16000) = [some (-(7/500))] ∧
    (0 : ℚ) ≠ -(7/500) := by
  with_unfolding_all decide

/-- C5 (amended): on finalize with a segment, the samples are the
concatenation of the buffered chunks from the cut index to the end of the
buffer, the duration is `totalSamples / 16000` seconds reported in ms, the
segment end is `endTime`, and the start is
`max 0 (endTime − totalSamples / sampleRate)` — clamped at zero. -/
theorem segment_payload_contents (s : SileroVAD) (t p : ℚ)
    (h : (t - s.speechStartTime) * 1000 ≥ s.config.minSpeechDuration) :
    (endSpeech s t p).2 = [VADEvent.speechEnd
      { isSpeech := false, probability := p, timestamp := t,
        segment := some (createSpeechSegment s t) }] ∧
    (createSpeechSegment s t).audioData
      = (s.audioBuffer.drop s.speechStartBufferIndex).flatten ∧
    (createSpeechSegment s t).duration
      = (((s.audioBuffer.drop s.speechStartBufferIndex).flatten.length : ℚ) / 16000) * 1000 ∧
    (createSpeechSegment s t).endTime = t ∧
    (createSpeechSegment s t).start
      = max 0 (t - ((s.audioBuffer.drop s.speechStartBufferIndex).flatten.length : ℚ)
          / 16000) := by
  refine ⟨?_, rfl, rfl, rfl, ?_⟩
  · rw [endSpeech_events, if_pos h]
  · simp only [createSpeechSegment]
    congr 1
    ring

/-- Witness for C5 (amended): finalizing a Speaking state with 2 ms of
buffered audio at t = 1. -/
theorem segment_payload_contents_witness :
    (endSpeech spkState 1 (1/2)).2 = [VADEvent.speechEnd
      { isSpeech := false, probability := 1/2, timestamp := 1,
        segment := some (createSpeechSegment spkState 1) }] ∧
    (createSpeechSegment spkState 1).audioData
      = (spkState.audioBuffer.drop spkState.speechStartBufferIndex).flatten ∧
    (createSpeechSegment spkState 1).duration
      = (((spkState.audioBuffer.drop spkState.speechStartBufferIndex).flatten.length : ℚ)
          / 16000) * 1000 ∧
    (createSpeechSegment spkState 1).endTime = 1 ∧
    (createSpeechSegment spkState 1).start
      = max 0 (1 - ((spkState.audioBuffer.drop
          spkState.speechStartBufferIndex).flatten.length : ℚ) / 16000) :=
  segment_payload_contents spkState 1 (1/2) (by with_unfolding_all decide)

/-- From Silence, a hysteresis step never touches the audio buffer. -/
theorem updateVADState_audioBuffer_of_silence (s : SileroVAD) (p t d : ℚ)
    (h : s.state = VADState.silence) :
    (updateVADState s p t d).1.audioBuffer = s.audioBuffer := by
  simp only [updateVADState, h]
  split_ifs <;> rfl

/-- The audio buffer produced by the buffering phase of a `process` call in
Silence on a nonempty chunk: the chunk is pushed, then the batch prune fires
exactly when the buffer exceeds 1.5 times `maxBufferFrames`. -/
theorem midState_audioBuffer_silence (oracle : Oracle) (s : SileroVAD) (c : List Sample)
    (t : ℚ) (hs : s.state = VADState.silence) (hc : c.length ≠ 0) :
    (midState oracle s c t).audioBuffer =
      (if ((s.audioBuffer ++ [c]).length : ℚ)
          > ((ceilQ (prePadSamplesOf s.config / (c.length : ℚ)) * 2 : ℤ) : ℚ) * (15/10)
        then sliceFromEnd (s.audioBuffer ++ [c])
          (ceilQ (prePadSamplesOf s.config / (c.length : ℚ)) * 2)
        else s.audioBuffer ++ [c]) := by
  simp only [midState, hs, hc, and_self, if_true, ne_eq, not_false_iff]
  split_ifs <;> rfl

/-- C3 counterexample: with `preSpeechPadDuration` = 0.5 ms (8 samples) and
8-sample chunks, `prePadFrames = 1` and the claimed bound is 2, but after
three chunks in Silence the buffer holds 3 frames (the prune only fires above
1.5 times the bound). -/
theorem silence_buffer_bound_counterexample :
    c3s3.state = VADState.silence ∧
    c3s3.audioBuffer.length = 3 ∧
    ¬ ((c3s3.audioBuffer.length : ℤ)
        ≤ 2 * ceilQ (prePadSamplesOf c3s3.config / (chunk8.length : ℚ))) := by
  with_unfolding_all decide

/-- C3 (amended): after a `process` call made in Silence with a nonempty
chunk and a positive pre-speech pad duration, the audio buffer holds at most
`3 × ⌈prePadSamples / frameLength⌉` frames — 1.5 times the claimed
`⌈prePadSamples / frameLength⌉ × 2`, since pruning is batched and only fires
above 1.5 times `maxBufferFrames`. -/
theorem silence_buffer_bound (oracle : Oracle) (s : SileroVAD) (c : List Sample) (t : ℚ)
    (hs : s.state = VADState.silence) (hc : c ≠ [])
    (hpp : 0 < s.config.preSpeechPadDuration) :
    ((process oracle s c t).engine.audioBuffer.length : ℤ)
      ≤ 3 * ceilQ (prePadSamplesOf s.config / (c.length : ℚ)) := by
  have hlen : 0 < c.length := List.length_pos.mpr hc
  have hlen' : c.length ≠ 0 := Nat.pos_iff_ne_zero.mp hlen
  set P : ℤ := ceilQ (prePadSamplesOf s.config / (c.length : ℚ)) with hPdef
  have hP : 1 ≤ P := by
    rw [hPdef, ceilQ_eq_ceil]
    have hq : 0 < prePadSamplesOf s.config / (c.length : ℚ) := by
      apply div_pos
      · unfold prePadSamplesOf
        positivity
      · exact_mod_cast hlen
    exact Int.ceil_pos.mpr hq
  have hmid : (midState oracle s c t).state = s.state := midState_state oracle s c t
  have hbuf : (process oracle s c t).engine.audioBuffer
      = (midState oracle s c t).audioBuffer := by
    simp only [process]
    exact updateVADState_audioBuffer_of_silence _ _ _ _ (hmid.trans hs)
  rw [hbuf, midState_audioBuffer_silence oracle s c t hs hlen', ← hPdef]
  set L := s.audioBuffer ++ [c] with hLdef
  split_ifs with hcond
  · -- prune fired: the buffer is cut to the last P * 2 frames
    have h2P : (0 : ℤ) < P * 2 := by omega
    have hslice : (sliceFromEnd L (P * 2)).length = L.length - (L.length - (P * 2).toNat) := by
      rw [sliceFromEnd, if_pos h2P, List.length_drop]
    have hle : (sliceFromEnd L (P * 2)).length ≤ (P * 2).toNat := by
      rw [hslice]
      omega
    have : ((sliceFromEnd L (P * 2)).length : ℤ) ≤ P * 2 := by
      calc ((sliceFromEnd L (P * 2)).length : ℤ) ≤ ((P * 2).toNat : ℤ) := by
            exact_mod_cast hle
        _ = P * 2 := Int.toNat_of_nonneg (by omega)
    omega
  · -- no prune: the buffer is within 1.5 * (P * 2) = 3 * P
    push_neg at hcond
    have h3 : ((P * 2 : ℤ) : ℚ) * (15/10) = ((3 * P : ℤ) : ℚ) := by
      push_cast
      ring
    rw [h3] at hcond
    exact_mod_cast hcond

/-- Witness for C3 (amended): the concrete Silence run of the counterexample
also satisfies the corrected 3 × bound. -/
theorem silence_buffer_bound_witness :
    ((process oracleHalf c3s0 chunk8 0).engine.audioBuffer.length : ℤ)
      ≤ 3 * ceilQ (prePadSamplesOf c3s0.config / (chunk8.length : ℚ)) :=
  silence_buffer_bound oracleHalf c3s0 chunk8 0 rfl
    (by with_unfolding_all decide) (by with_unfolding_all decide)

/-- C6: `reset()` from any state leaves the engine in Silence with empty
frame and sample buffers, a cleared last probability, and the zero-valued
recurrent state; applying it twice equals applying it once. -/
theorem reset_returns_to_silence (s : SileroVAD) :
    (reset s).state = VADState.silence ∧
    (reset s).audioBuffer = [] ∧
    (reset s).sampleBuffer = [] ∧
    (reset s).lastProbability = 0 ∧
    (reset s).stateTensor = List.replicate 256 0 ∧
    reset (reset s) = reset s :=
  ⟨rfl, rfl, rfl, rfl, rfl, rfl⟩

/-- C7: `updateConfig` performs an unconditional merge with no validation —
setting `negativeSpeechThreshold` to 0.9 against the stored positive
threshold 0.3 is accepted and stored, leaving the configuration in the
invalid state `negative ≥ positive` instead of failing with the
configuration unchanged. -/
theorem config_update_not_validated :
    (mkSileroVAD {}).config.negativeSpeechThreshold = 1/4 ∧
    (mkSileroVAD {}).config.positiveSpeechThreshold = 3/10 ∧
    (updateConfig (mkSileroVAD {}) c7upd).config.negativeSpeechThreshold = 9/10 ∧
    (updateConfig (mkSileroVAD {}) c7upd).config.positiveSpeechThreshold = 3/10 ∧
    ¬ ((9 : ℚ)/10 < 3/10) := by
  with_unfolding_all decide

/-- C8: flushing while Speaking or PotentialEnd finalizes immediately —
exactly one `speech-end` fires carrying the last known probability and the
engine returns to Silence; flushing while PotentialStart discards the
pending accumulation, returns to Silence, and emits nothing. -/
theorem flush_finalizes (s : SileroVAD) (topt : Option ℚ)
    (h : s.state = VADState.speaking ∨ s.state = VADState.potential_end
        ∨ s.state = VADState.potential_start) :
    (flush s topt).1.state = VADState.silence ∧
    (flush s topt).2.map eventIsEnd
      = (if s.state = VADState.potential_start then [] else [true]) ∧
    (flush s topt).2.map (fun e => (eventData e).probability)
      = (if s.state = VADState.potential_start then [] else [s.lastProbability]) := by
  rcases h with h | h | h
  · have hcond : s.state = VADState.speaking ∨ s.state = VADState.potential_end := Or.inl h
    simp only [flush, if_pos hcond]
    refine ⟨endSpeech_fst_state _ _ _, ?_, ?_⟩ <;>
      rw [endSpeech_events] <;> simp [h, eventData, eventIsEnd]
  · have hcond : s.state = VADState.speaking ∨ s.state = VADState.potential_end := Or.inr h
    simp only [flush, if_pos hcond]
    refine ⟨endSpeech_fst_state _ _ _, ?_, ?_⟩ <;>
      rw [endSpeech_events] <;> simp [h, eventData, eventIsEnd]
  · simp [flush, h, resetToSilence]

/-- Witness for C8: flushing a concrete Speaking state. -/
theorem flush_finalizes_witness :
    (flush spkState (some 1)).1.state = VADState.silence ∧
    (flush spkState (some 1)).2.map eventIsEnd
      = (if spkState.state = VADState.potential_start then [] else [true]) ∧
    (flush spkState (some 1)).2.map (fun e => (eventData e).probability)
      = (if spkState.state = VADState.potential_start then []
         else [spkState.lastProbability]) :=
  flush_finalizes spkState (some 1) (Or.inl rfl)

/-- C9 (modelled from the spec, see `drainQueue`): processing the queued
chunks in arrival order emits exactly one `vad-result` per processed item,
in order, carrying that call's timestamp and its returned
`{isSpeech, probability}`. -/
theorem vad_result_per_processed_frame (oracle : Oracle) (s : SileroVAD)
    (q : List (List Sample × ℚ)) :
    (drainQueue oracle s q).2.length = q.length ∧
    (drainQueue oracle s q).2.map VADResultEvent.timestamp = q.map Prod.snd ∧
    (drainQueue oracle s q).2.map (fun e => (e.isSpeech, e.probability))
      = processOutputs oracle s q := by
  induction q generalizing s with
  | nil => exact ⟨rfl, rfl, rfl⟩
  | cons ct rest ih =>
    refine ⟨?_, ?_, ?_⟩ <;>
      simp [drainQueue, processOutputs,
        (ih (process oracle s ct.1 ct.2).engine).1,
        (ih (process oracle s ct.1 ct.2).engine).2.1,
        (ih (process oracle s ct.1 ct.2).engine).2.2]

/-- C10 counterexample: after a first 512-sample chunk leaves PotentialStart
with 32 ms accumulated and `lastProbability = 1/2`, processing an empty
chunk accumulates a further 32 ms (the one-frame fallback of
`updateVADState`), not the chunk's own duration 0 ms. -/
theorem zero_frame_duration_counterexample :
    c10s1.state = VADState.potential_start ∧
    c10s1.potentialSpeechDurationMs = 32 ∧
    c10s1.lastProbability = 1/2 ∧
    c10s2.potentialSpeechDurationMs = 64 ∧
    (64 : ℚ) ≠ 32 + ((([] : List Sample).length : ℚ) / 16000) * 1000 := by
  with_unfolding_all decide

/-- C10 (amended): each `process` call performs exactly one hysteresis step,
whose probability is the arithmetic mean of the completed frames'
probabilities (or, with zero completed frames, the last probability an
earlier call produced — 0 before any frame was inferred), and, provided the
chunk is nonempty, whose effective step duration is exactly the completed
frames' total duration (or, with zero completed frames, the chunk's own
duration); an empty chunk instead falls back to a single frame's duration. -/
theorem single_update_per_call (oracle : Oracle) (s : SileroVAD) (c : List Sample) (t : ℚ)
    (hc : c ≠ []) :
    (process oracle s c t
        = { engine := (updateVADState (midState oracle s c t)
              (stepProbOf oracle s c) t (stepDurOf oracle s c)).1
            events := (updateVADState (midState oracle s c t)
              (stepProbOf oracle s c) t (stepDurOf oracle s c)).2.1
            isSpeech := (updateVADState (midState oracle s c t)
              (stepProbOf oracle s c) t (stepDurOf oracle s c)).2.2
            probability := stepProbOf oracle s c }) ∧
    stepDurationMs (midState oracle s c t).frameSize (stepDurOf oracle s c)
      = stepDurOf oracle s c := by
  refine ⟨rfl, ?_⟩
  rw [midState_frameSize]
  have hlen : 0 < c.length := List.length_pos.mpr hc
  by_cases hp : 0 < (frameProbs oracle s c).length
  · rcases Nat.eq_zero_or_pos s.frameSize with hfz | hfz
    · simp [stepDurationMs, stepDurOf, hp, hfz]
    · have hD : (0 : ℚ) < ((frameProbs oracle s c).length : ℚ)
          * (((s.frameSize : ℚ) / 16000) * 1000) := by
        apply mul_pos
        · exact_mod_cast hp
        · apply mul_pos
          · apply div_pos
            · exact_mod_cast hfz
            · norm_num
          · norm_num
      rw [stepDurOf, if_pos hp, stepDurationMs, if_pos hD]
  · have hD : (0 : ℚ) < ((c.length : ℚ) / 16000) * 1000 := by
      apply mul_pos
      · apply div_pos
        · exact_mod_cast hlen
        · norm_num
      · norm_num
    rw [stepDurOf, if_neg hp, stepDurationMs, if_pos hD]

/-- Witness for C10 (amended): a concrete 8-sample chunk through a fresh
default engine. -/
theorem single_update_per_call_witness :
    (process oracleHalf (mkSileroVAD {}) chunk8 0
        = { engine := (updateVADState (midState oracleHalf (mkSileroVAD {}) chunk8 0)
              (stepProbOf oracleHalf (mkSileroVAD {}) chunk8) 0
              (stepDurOf oracleHalf (mkSileroVAD {}) chunk8)).1
            events := (updateVADState (midState oracleHalf (mkSileroVAD {}) chunk8 0)
              (stepProbOf oracleHalf (mkSileroVAD {}) chunk8) 0
              (stepDurOf oracleHalf (mkSileroVAD {}) chunk8)).2.1
            isSpeech := (updateVADState (midState oracleHalf (mkSileroVAD {}) chunk8 0)
              (stepProbOf oracleHalf (mkSileroVAD {}) chunk8) 0
              (stepDurOf oracleHalf (mkSileroVAD {}) chunk8)).2.2
            probability := stepProbOf oracleHalf (mkSileroVAD {}) chunk8 }) ∧
    stepDurationMs (midState oracleHalf (mkSileroVAD {}) chunk8 0).frameSize
        (stepDurOf oracleHalf (mkSileroVAD {}) chunk8)
      = stepDurOf oracleHalf (mkSileroVAD {}) chunk8 :=
  single_update_per_call oracleHalf (mkSileroVAD {}) chunk8 0 (by with_unfolding_all decide)

end RealtimeVAD
